import Mathlib

/-!
Verification of the browserless-compose session broker.

The definitions below are a shallow embedding of the two Node scripts
`orbita-launcher.js` and `browserless-orbita-wrapper.js`.  Pure logic is
translated into Lean functions; filesystem, network and subprocess effects
become explicit parameters describing the outcome of each effectful call
(`Except String _` for fallible calls).  JavaScript strings are modelled by
`String`, JavaScript string `startsWith` by character-list prefix testing,
and JavaScript truthiness of optional fields by explicit helpers.
-/

namespace BrowserlessCompose

/-- JavaScript `s.startsWith(pre)`, modelled as a prefix test on the
character lists of the two strings. -/
def jsStartsWith (s pre : String) : Bool :=
  pre.data.isPrefixOf s.data

/-- JavaScript `s.split(sep)[0]` for a single-character separator: the part
of the string before the first occurrence of `sep` (the whole string when
`sep` does not occur). -/
def splitHead (sep : Char) (s : String) : String :=
  ⟨s.data.takeWhile (fun c => c ≠ sep)⟩

/-- JavaScript `s.split(sep)[1]` for a single-character separator: the part
between the first and second occurrence of `sep`, or `none` when `sep` does
not occur. -/
def splitSecond (sep : Char) (s : String) : Option String :=
  match s.data.dropWhile (fun c => c ≠ sep) with
  | [] => none
  | _ :: t => some ⟨t.takeWhile (fun c => c ≠ sep)⟩

/-- JavaScript `arg.split("=")[0]`: the part of a flag up to the first `=`
(the whole string when there is no `=`). -/
def flagKey (arg : String) : String :=
  splitHead '=' arg

/-- JavaScript truthiness of an optional string field: `undefined` and the
empty string are falsy. -/
def truthyStr : Option String → Option String
  | some s => if s = "" then none else some s
  | none => none

/-- JavaScript truthiness of an optional numeric field: `undefined` and `0`
are falsy. -/
def truthyNat : Option Nat → Bool
  | some n => !(n == 0)
  | none => false

/-- JavaScript `x || d` for an optional numeric field. -/
def natOrDefault : Option Nat → Nat → Nat
  | some n, d => if n = 0 then d else n
  | none, d => d

/-- JavaScript string interpolation of a possibly-undefined value. -/
def jsInterp : Option String → String
  | some s => s
  | none => "undefined"

/-- The `navigator` object of a fingerprint descriptor returned by the
GoLogin API. -/
structure Navigator where
  userAgent : Option String
  resolution : Option String
  language : Option String
  platform : Option String
  hardwareConcurrency : Option Nat
  deviceMemory : Option Nat
deriving DecidableEq

/-- A `canvas` or `webGLMetadata` object with its `mode` field. -/
structure BehaviorMode where
  mode : Option String
deriving DecidableEq

/-- The body of a fingerprint response (`response.data`) before a session
identifier is attached. -/
structure FingerprintData where
  navigator : Option Navigator
  canvas : Option BehaviorMode
  webGLMetadata : Option BehaviorMode
deriving DecidableEq

/-- A fetched fingerprint descriptor: `response.data` with the freshly
generated `sessionId` attached (launcher path). -/
structure Fingerprint where
  navigator : Option Navigator
  canvas : Option BehaviorMode
  webGLMetadata : Option BehaviorMode
  sessionId : String
deriving DecidableEq

/-- Attaching a fresh session identifier to a response body
(`response.data.sessionId = uuidv4()`). -/
def withSessionId (d : FingerprintData) (sid : String) : Fingerprint :=
  ⟨d.navigator, d.canvas, d.webGLMetadata, sid⟩

/-! ### Argument Builder (`buildOrbitaArgs`) -/

/-- The `--user-data-dir` flag, pushed when a profile path is present. -/
def userDataArgs : Option String → List String
  | some p => ["--user-data-dir=" ++ p]
  | none => []

/-- The `--user-agent` flag, pushed when `navigator.userAgent` is truthy. -/
def uaArgs (n : Navigator) : List String :=
  match truthyStr n.userAgent with
  | some ua => ["--user-agent=" ++ ua]
  | none => []

/-- The `--window-size` flag: the resolution string is split on `x`, width
then height; a missing height renders as `undefined`. -/
def windowSizeArgs (n : Navigator) : List String :=
  match truthyStr n.resolution with
  | some r =>
    ["--window-size=" ++ (splitHead 'x' r ++ ("," ++ jsInterp (splitSecond 'x' r)))]
  | none => []

/-- The `--lang` (primary language) and `--accept-lang` (full list) flags. -/
def langArgs (n : Navigator) : List String :=
  match truthyStr n.language with
  | some l => ["--lang=" ++ splitHead ',' l, "--accept-lang=" ++ l]
  | none => []

/-- Does the needle occur as a contiguous substring of the haystack. -/
def containsSubChars (needle : List Char) : List Char → Bool
  | [] => false
  | c :: rest => needle.isPrefixOf (c :: rest) || containsSubChars needle rest

/-- JavaScript `platform.includes("Mac")`. -/
def containsMac (p : String) : Bool :=
  containsSubChars "Mac".data p.data

/-- Platform-conditional flags: font subpixel tuning on Mac platforms. -/
def platformArgs (n : Navigator) : List String :=
  match truthyStr n.platform with
  | some p => if containsMac p then ["--enable-font-subpixel-positioning"] else []
  | none => []

/-- The memory-sizing flag: pushed only when `navigator.hardwareConcurrency`
is truthy, with value `(navigator.deviceMemory || 8) * 1024`. -/
def memoryArgs (n : Navigator) : List String :=
  if truthyNat n.hardwareConcurrency then
    ["--max-old-space-size=" ++ toString (natOrDefault n.deviceMemory 8 * 1024)]
  else []

/-- All navigator-derived flags, in source push order. -/
def navArgs : Option Navigator → List String
  | some n => uaArgs n ++ windowSizeArgs n ++ langArgs n ++ platformArgs n ++ memoryArgs n
  | none => []

/-- Flags pushed when an optional behavior object has `mode === "off"`. -/
def modeOffArgs (m : Option BehaviorMode) (flags : List String) : List String :=
  match m with
  | some mm => if mm.mode = some "off" then flags else []
  | none => []

/-- The fixed baseline (essential) browser arguments, in source order. -/
def essentialArgs : List String :=
  [ "--no-sandbox",
    "--disable-dev-shm-usage",
    "--disable-features=TranslateUI",
    "--disable-ipc-flooding-protection",
    "--enable-features=NetworkService,NetworkServiceLogging",
    "--disable-background-networking",
    "--remote-debugging-port=0",
    "--allow-pre-commit-input",
    "--disable-background-timer-throttling",
    "--disable-backgrounding-occluded-windows",
    "--disable-renderer-backgrounding" ]

/-- All fingerprint-derived flags, in source push order. -/
def fingerprintArgs (fp : Fingerprint) (profilePath : Option String) : List String :=
  userDataArgs profilePath ++ navArgs fp.navigator
    ++ modeOffArgs fp.canvas ["--disable-canvas-aa", "--disable-2d-canvas-clip-aa"]
    ++ modeOffArgs fp.webGLMetadata ["--disable-webgl", "--disable-webgl2"]

/-- The accumulated argument list just before the baseline merge: the caller
arguments followed by the fingerprint-derived flags. -/
def preOrbitaArgs (fp : Fingerprint) (profilePath : Option String)
    (originalArgs : List String) : List String :=
  originalArgs ++ fingerprintArgs fp profilePath

/-- The baseline merge loop: each essential argument is appended only when no
argument already accumulated starts with its flag key. -/
def mergeEssentialsAux : List String → List String → List String
  | acc, [] => acc
  | acc, e :: es =>
    if acc.any (fun a => jsStartsWith a (flagKey e)) then
      mergeEssentialsAux acc es
    else
      mergeEssentialsAux (acc ++ [e]) es

/-- The essential arguments actually appended by the baseline merge loop,
in the order they are appended. -/
def extraEssentialsAux : List String → List String → List String
  | _, [] => []
  | acc, e :: es =>
    if acc.any (fun a => jsStartsWith a (flagKey e)) then
      extraEssentialsAux acc es
    else
      e :: extraEssentialsAux (acc ++ [e]) es

/-- `buildOrbitaArgs(fingerprint, profilePath, originalArgs)`: the caller
arguments, then the fingerprint-derived flags, then the deduplicated
baseline flags. -/
def buildOrbitaArgs (fp : Fingerprint) (profilePath : Option String)
    (originalArgs : List String) : List String :=
  mergeEssentialsAux (preOrbitaArgs fp profilePath originalArgs) essentialArgs

/-- The essential arguments appended on a given pre-merge list. -/
def appendedEssentials (fp : Fingerprint) (profilePath : Option String)
    (originalArgs : List String) : List String :=
  extraEssentialsAux (preOrbitaArgs fp profilePath originalArgs) essentialArgs

/-! ### Fingerprint Client (`fetchGologinFingerprint`)

The remote call of attempt `i` is modelled by `net i`: `Except.error e`
when axios throws `e`, `Except.ok none` when the response has a falsy
`data` field, and `Except.ok (some d)` when the body `d` is present. -/

/-- The fixed retry bound of the fetch loop. -/
def maxRetries : Nat := 2

/-- The message thrown when the response body is falsy. -/
def invalidResponseMsg : String := "Invalid response from GoLogin API"

/-- The final error message after all attempts have failed. -/
def exhaustedMsg (lastErr : String) : String :=
  "Failed to fetch fingerprint from GoLogin API after "
    ++ toString (maxRetries + 1) ++ " attempts. Last error: " ++ lastErr

/-- The outcome of the whole fetch loop: the returned descriptor or the
thrown error, together with the number of attempts made and the total
injected delay in milliseconds. -/
structure FetchOutcome where
  result : Except String Fingerprint
  attempts : Nat
  delayMs : Nat

/-- The body of the retry loop, from attempt number `attempt` with
`remaining` attempts still allowed.  A failed attempt that is not the last
one injects a delay of `attempt * 1000` milliseconds and retries. -/
def fetchAux (net : Nat → Except String (Option FingerprintData)) (sid : String) :
    Nat → Nat → FetchOutcome
  | _, 0 => ⟨.error (exhaustedMsg ""), 0, 0⟩
  | attempt, remaining + 1 =>
    match net attempt with
    | .ok (some d) => ⟨.ok (withSessionId d sid), 1, 0⟩
    | .ok none =>
      if remaining = 0 then ⟨.error (exhaustedMsg invalidResponseMsg), 1, 0⟩
      else
        let rest := fetchAux net sid (attempt + 1) remaining
        ⟨rest.result, rest.attempts + 1, rest.delayMs + attempt * 1000⟩
    | .error e =>
      if remaining = 0 then ⟨.error (exhaustedMsg e), 1, 0⟩
      else
        let rest := fetchAux net sid (attempt + 1) remaining
        ⟨rest.result, rest.attempts + 1, rest.delayMs + attempt * 1000⟩

/-- `fetchGologinFingerprint`: the retry loop started at attempt 1 with
`maxRetries + 1` attempts allowed; `sid` is the fresh session identifier
attached to a successful response. -/
def fetchGologinFingerprint (net : Nat → Except String (Option FingerprintData))
    (sid : String) : FetchOutcome :=
  fetchAux net sid 1 (maxRetries + 1)

/-- Attempt outcome `r` is a failure whose logged message is `e`: either the
call threw `e`, or the body was falsy and `e` is the invalid-response
message. -/
def attemptFailsWith (r : Except String (Option FingerprintData)) (e : String) : Prop :=
  r = .error e ∨ (r = .ok none ∧ e = invalidResponseMsg)

/-! ### Session Gateway (`browserless-orbita-wrapper.js`) -/

/-- A gateway fingerprint record: profile identifier, response body, and
creation timestamp. -/
structure GwFingerprint where
  profile_id : String
  data : FingerprintData
  created_at : String
deriving DecidableEq

/-- `generateFreshFingerprint`: a single remote call; any thrown error or
falsy body yields `none` (the catch logs and returns null), a present body
is wrapped with a fresh `orbita-` profile identifier. -/
def generateFreshFingerprint (api : Except String (Option FingerprintData))
    (uuid8 : String) (now : String) : Option GwFingerprint :=
  match api with
  | .ok (some d) => some ⟨"orbita-" ++ uuid8, d, now⟩
  | .ok none => none
  | .error _ => none

/-- The `activeFingerprints` map: a JavaScript `Map` in insertion order. -/
abbrev Registry : Type := List (String × GwFingerprint)

/-- JavaScript `Map.set`: overwrite in place when the key is present,
append otherwise. -/
def registrySet (m : Registry) (k : String) (v : GwFingerprint) : Registry :=
  if (List.any m fun p => p.1 == k) then
    List.map (fun p => if p.1 = k then (k, v) else p) m
  else m ++ [(k, v)]

/-- The session identifiers currently registered, in insertion order. -/
def registryKeys (m : Registry) : List String :=
  List.map Prod.fst m

/-- The `count` reported by the introspection endpoints (`Map.size`). -/
def activeCount (m : Registry) : Nat :=
  List.length m

/-- An incoming request, as far as the middleware inspects and mutates it. -/
structure Request where
  upgradeHeader : Option String
  gologinFingerprint : Option GwFingerprint
deriving DecidableEq

/-- The observable outcome of one middleware invocation. -/
structure MiddlewareResult where
  req : Request
  registry : Registry
  forwarded : Bool

/-- `fingerprintMiddleware`: on a WebSocket upgrade the acquisition outcome
`fpOutcome` is consulted (`Except.error` models a thrown error, caught by
the surrounding catch); a descriptor is attached to the request and stored
in the registry; in every case `next()` is called. -/
def fingerprintMiddleware (fpOutcome : Except String (Option GwFingerprint))
    (req : Request) (reg : Registry) : MiddlewareResult :=
  if req.upgradeHeader = some "websocket" then
    match fpOutcome with
    | .ok (some fp) =>
      ⟨{ req with gologinFingerprint := some fp },
        registrySet reg fp.profile_id fp, true⟩
    | .ok none => ⟨req, reg, true⟩
    | .error _ => ⟨req, reg, true⟩
  else ⟨req, reg, true⟩

/-- One registry-relevant gateway operation. -/
inductive GatewayOp where
  | upgrade (fpOutcome : Except String (Option GwFingerprint)) (req : Request)
  | generateEndpoint (api : Except String (Option FingerprintData)) (uuid8 now : String)
  | activeEndpoint
  | healthEndpoint

/-- The effect of one gateway operation on the registry: only the upgrade
middleware touches it; `/gologin/generate`, `/gologin/active` and `/health`
leave it unchanged. -/
def applyGatewayOp (reg : Registry) : GatewayOp → Registry
  | .upgrade fpOutcome req => (fingerprintMiddleware fpOutcome req reg).registry
  | .generateEndpoint _ _ _ => reg
  | .activeEndpoint => reg
  | .healthEndpoint => reg

/-- Running a sequence of gateway operations over the registry. -/
def runGatewayOps (reg : Registry) : List GatewayOp → Registry
  | [] => reg
  | op :: ops => runGatewayOps (applyGatewayOp reg op) ops

/-- The restart decision taken by the wrapper when the supervised
browserless process closes. -/
inductive RestartAction where
  | noRestart
  | restartAfterMs (delayMs : Nat)
deriving DecidableEq

/-- The `close` handler of `startBrowserless`: any non-zero exit code
schedules a restart after 5000 milliseconds. -/
def onBrowserlessExit (code : Int) : RestartAction :=
  if code ≠ 0 then .restartAfterMs 5000 else .noRestart

/-- The observable outcome of the launcher `close` handler. -/
structure LauncherExitResult where
  reclaimInvoked : Bool
  exitCode : Int
deriving DecidableEq

/-- The `close` handler of `launch`: the profile directory is reclaimed
when a profile path and a fingerprint are present, and the child exit code
becomes the launcher exit code. -/
def onOrbitaExit (profilePath : Option String) (fingerprintPresent : Bool)
    (code : Int) : LauncherExitResult :=
  ⟨profilePath.isSome && fingerprintPresent, code⟩

/-! ### Profile Manager (`setupProfileDirectory`, `cleanupOldProfiles`) -/

/-- The outcomes of the three filesystem calls made while preparing a
profile directory. -/
structure ProfileFs where
  mkdirProfile : Except String Unit
  mkdirDefault : Except String Unit
  writePrefs : Except String Unit

/-- `setupProfileDirectory`: any filesystem failure is caught and yields
`none` (no profile); on success the profile path is returned. -/
def setupProfileDirectory (profileDir : String) (fp : Fingerprint)
    (fsEnv : ProfileFs) : Option String :=
  match fsEnv.mkdirProfile with
  | .error _ => none
  | .ok _ =>
    match fsEnv.mkdirDefault with
    | .error _ => none
    | .ok _ =>
      match fsEnv.writePrefs with
      | .error _ => none
      | .ok _ => some (profileDir ++ "/" ++ fp.sessionId)

/-- The launch pipeline after the sweep: an exhausted fetch aborts the
launch; otherwise the profile is prepared best-effort and the argument
list is built. -/
structure LaunchPlan where
  args : List String
  profilePath : Option String
deriving DecidableEq

/-- `launch` (the fetch-prepare-build prefix): propagates a fetch failure,
never fails on profile preparation. -/
def launchPlan (fetchResult : Except String Fingerprint) (fsEnv : ProfileFs)
    (profileDir : String) (originalArgs : List String) : Except String LaunchPlan :=
  match fetchResult with
  | .error e => .error e
  | .ok fp =>
    let pp := setupProfileDirectory profileDir fp fsEnv
    .ok ⟨buildOrbitaArgs fp pp originalArgs, pp⟩

/-- The sweep cutoff: two hours in milliseconds. -/
def twoHoursMs : Nat := 2 * 60 * 60 * 1000

/-- One directory listed by `readdir`, with the outcomes of the `stat` and
recursive `rmdir` calls the sweep may make on it. -/
structure SweepEntry where
  sessionId : String
  statResult : Except String Nat
  rmResult : Except String Unit

/-- The sweep loop over the listed directories: an entry older than the
cutoff is removed; the first failing `stat` or `rmdir` is caught by the
surrounding catch, which logs it and ends the sweep.  The result is the
list of removed session identifiers and the logged warning, if any. -/
def sweepLoop (cutoff : Int) : List SweepEntry → List String × Option String
  | [] => ([], none)
  | e :: rest =>
    match e.statResult with
    | .error msg => ([], some msg)
    | .ok mtime =>
      if (mtime : Int) < cutoff then
        match e.rmResult with
        | .error msg => ([], some msg)
        | .ok _ =>
          let r := sweepLoop cutoff rest
          (e.sessionId :: r.1, r.2)
      else sweepLoop cutoff rest

/-- `cleanupOldProfiles`: `readdir` failure is caught and logged; otherwise
the loop runs with cutoff `now - 2h`.  The function is total: no error
propagates to the caller. -/
def cleanupOldProfiles (now : Nat)
    (readdirResult : Except String (List SweepEntry)) : List String × Option String :=
  match readdirResult with
  | .error msg => ([], some msg)
  | .ok entries => sweepLoop ((now : Int) - (twoHoursMs : Int)) entries

/-- A directory entry on which every filesystem call succeeds. -/
def cleanEntry (d : String × Nat) : SweepEntry :=
  ⟨d.1, .ok d.2, .ok ()⟩

/-! ### Lemmas about the baseline merge loop -/

theorem mergeEssentialsAux_eq_append (es : List String) :
    ∀ acc, mergeEssentialsAux acc es = acc ++ extraEssentialsAux acc es := by
  induction es with
  | nil => intro acc; simp [mergeEssentialsAux, extraEssentialsAux]
  | cons e es ih =>
    intro acc
    by_cases h : (acc.any fun a => jsStartsWith a (flagKey e)) = true
    · simp only [mergeEssentialsAux, extraEssentialsAux, if_pos h]
      exact ih acc
    · simp only [mergeEssentialsAux, extraEssentialsAux, if_neg h]
      rw [ih (acc ++ [e])]
      simp

theorem mem_of_mem_extraEssentialsAux (es : List String) :
    ∀ acc e, e ∈ extraEssentialsAux acc es → e ∈ es := by
  induction es with
  | nil => intro acc e h; simp [extraEssentialsAux] at h
  | cons e1 es ih =>
    intro acc e h
    simp only [extraEssentialsAux] at h
    by_cases hc : (acc.any fun a => jsStartsWith a (flagKey e1)) = true
    · rw [if_pos hc] at h
      exact List.mem_cons_of_mem _ (ih acc e h)
    · rw [if_neg hc] at h
      rcases List.mem_cons.mp h with rfl | h2
      · exact List.mem_cons_self _ _
      · exact List.mem_cons_of_mem _ (ih _ e h2)

theorem extraEssentialsAux_get_not_started (es : List String) :
    ∀ acc (i : Nat) (e2 : String), (extraEssentialsAux acc es).get? i = some e2 →
      ∀ a ∈ acc ++ (extraEssentialsAux acc es).take i,
        jsStartsWith a (flagKey e2) = false := by
  induction es with
  | nil => intro acc i e2 hget; simp [extraEssentialsAux] at hget
  | cons e1 es ih =>
    intro acc i e2 hget a ha
    by_cases hc : (acc.any fun x => jsStartsWith x (flagKey e1)) = true
    · have hrw : extraEssentialsAux acc (e1 :: es) = extraEssentialsAux acc es := by
        simp only [extraEssentialsAux, if_pos hc]
      rw [hrw] at hget ha
      exact ih acc i e2 hget a ha
    · have hrw : extraEssentialsAux acc (e1 :: es)
          = e1 :: extraEssentialsAux (acc ++ [e1]) es := by
        simp only [extraEssentialsAux, if_neg hc]
      rw [hrw] at hget ha
      match i, hget with
      | 0, hget =>
        have he2 : e2 = e1 := by simpa using hget.symm
        subst he2
        simp only [List.take_zero, List.append_nil] at ha
        have hall := List.any_eq_false.mp (Bool.eq_false_iff.mpr hc)
        simpa using hall a ha
      | j + 1, hget =>
        have hget2 : (extraEssentialsAux (acc ++ [e1]) es).get? j = some e2 := by
          simpa using hget
        have ha2 : a ∈ (acc ++ [e1]) ++ (extraEssentialsAux (acc ++ [e1]) es).take j := by
          simp only [List.take_succ_cons] at ha
          simpa [List.append_assoc] using ha
        exact ih (acc ++ [e1]) j e2 hget2 a ha2

theorem not_mem_extraEssentialsAux (es : List String) :
    ∀ acc a e, a ∈ acc → jsStartsWith a (flagKey e) = true →
      e ∉ extraEssentialsAux acc es := by
  induction es with
  | nil => intro acc a e _ _; simp [extraEssentialsAux]
  | cons e1 es ih =>
    intro acc a e ha hs
    simp only [extraEssentialsAux]
    by_cases hc : (acc.any fun x => jsStartsWith x (flagKey e1)) = true
    · rw [if_pos hc]
      exact ih acc a e ha hs
    · rw [if_neg hc]
      intro hmem
      rcases List.mem_cons.mp hmem with rfl | h2
      · have hall := List.any_eq_false.mp (Bool.eq_false_iff.mpr hc)
        exact absurd hs (by simpa using hall a ha)
      · exact ih (acc ++ [e1]) a e (List.mem_append_left _ ha) hs h2

/-! ### Claim C1 -/

/-- C1: the argument builder appends a baseline (essential) flag only when
no argument already accumulated starts with its flag name (the substring up
to `=`); in particular a baseline flag sharing a flag name with a
caller-supplied argument is omitted, so caller-supplied and
fingerprint-derived flags take precedence over baseline defaults. -/
theorem c1_baseline_flag_precedence (fp : Fingerprint) (pp : Option String)
    (caller : List String) (e : String)
    (he : e ∈ essentialArgs)
    (ha : ∃ a ∈ caller, jsStartsWith a (flagKey e) = true) :
    buildOrbitaArgs fp pp caller
        = preOrbitaArgs fp pp caller ++ appendedEssentials fp pp caller
      ∧ (∀ e2 ∈ appendedEssentials fp pp caller, e2 ∈ essentialArgs)
      ∧ (∀ (i : Nat) (e2 : String), (appendedEssentials fp pp caller).get? i = some e2 →
          ∀ a ∈ preOrbitaArgs fp pp caller ++ (appendedEssentials fp pp caller).take i,
            jsStartsWith a (flagKey e2) = false)
      ∧ e ∉ appendedEssentials fp pp caller := by
  refine ⟨mergeEssentialsAux_eq_append _ _, ?_, ?_, ?_⟩
  · intro e2 h2
    exact mem_of_mem_extraEssentialsAux _ _ _ h2
  · intro i e2 hget a hmem
    exact extraEssentialsAux_get_not_started _ _ i e2 hget a hmem
  · obtain ⟨a, haC, hsw⟩ := ha
    exact not_mem_extraEssentialsAux _ _ a e (List.mem_append_left _ haC) hsw

theorem c1_witness :
    buildOrbitaArgs ⟨none, none, none, "s"⟩ none ["--no-sandbox=custom"]
        = preOrbitaArgs ⟨none, none, none, "s"⟩ none ["--no-sandbox=custom"]
          ++ appendedEssentials ⟨none, none, none, "s"⟩ none ["--no-sandbox=custom"]
      ∧ (∀ e2 ∈ appendedEssentials ⟨none, none, none, "s"⟩ none ["--no-sandbox=custom"],
          e2 ∈ essentialArgs)
      ∧ (∀ (i : Nat) (e2 : String),
          (appendedEssentials ⟨none, none, none, "s"⟩ none ["--no-sandbox=custom"]).get? i
            = some e2 →
          ∀ a ∈ preOrbitaArgs ⟨none, none, none, "s"⟩ none ["--no-sandbox=custom"]
              ++ (appendedEssentials ⟨none, none, none, "s"⟩ none ["--no-sandbox=custom"]).take i,
            jsStartsWith a (flagKey e2) = false)
      ∧ "--no-sandbox" ∉ appendedEssentials ⟨none, none, none, "s"⟩ none ["--no-sandbox=custom"] :=
  c1_baseline_flag_precedence ⟨none, none, none, "s"⟩ none ["--no-sandbox=custom"] "--no-sandbox"
    (by decide) ⟨"--no-sandbox=custom", by decide, by decide⟩

/-! ### Claim C9 -/

/-- C9: the argument builder is deterministic; two calls with identical
descriptor, profile handle, and caller argument list yield identical
ordered argument lists. -/
theorem c9_buildOrbitaArgs_deterministic (fp fp2 : Fingerprint)
    (pp pp2 : Option String) (caller caller2 : List String)
    (h1 : fp = fp2) (h2 : pp = pp2) (h3 : caller = caller2) :
    buildOrbitaArgs fp pp caller = buildOrbitaArgs fp2 pp2 caller2 := by
  subst h1; subst h2; subst h3; rfl

theorem c9_witness :
    buildOrbitaArgs ⟨none, none, none, "s"⟩ none ["--headless"]
      = buildOrbitaArgs ⟨none, none, none, "s"⟩ none ["--headless"] :=
  c9_buildOrbitaArgs_deterministic ⟨none, none, none, "s"⟩ ⟨none, none, none, "s"⟩
    none none ["--headless"] ["--headless"] rfl rfl rfl

/-! ### Claim C4 -/

/-- C4 counterexample: a descriptor whose navigator lacks the
hardware-concurrency hint receives no memory-sizing flag at all, although
the claim promises one (value 8 * 1024 here, since the device-memory hint
is absent). -/
theorem c4_counterexample :
    ("--max-old-space-size=" ++ toString (8 * 1024)) ∉
        buildOrbitaArgs ⟨some ⟨none, none, none, none, none, none⟩, none, none, "sid"⟩ none []
      ∧ (buildOrbitaArgs ⟨some ⟨none, none, none, none, none, none⟩, none, none, "sid"⟩
            none []).all (fun a => !(jsStartsWith a "--max-old-space-size")) = true := by
  exact ⟨by decide, by decide⟩

/-- C4 amended: for every descriptor whose navigator carries a truthy
hardware-concurrency hint, the built argument list contains the
memory-sizing flag whose value is the device-memory hint (default 8 when
absent) multiplied by 1024. -/
theorem c4_memory_flag (fp : Fingerprint) (n : Navigator) (pp : Option String)
    (caller : List String)
    (hn : fp.navigator = some n) (hhc : truthyNat n.hardwareConcurrency = true) :
    ("--max-old-space-size=" ++ toString (natOrDefault n.deviceMemory 8 * 1024))
      ∈ buildOrbitaArgs fp pp caller := by
  rw [buildOrbitaArgs, mergeEssentialsAux_eq_append]
  apply List.mem_append_left
  rw [preOrbitaArgs]
  apply List.mem_append_right
  simp [fingerprintArgs, navArgs, hn, memoryArgs, hhc]

theorem c4_witness :
    ("--max-old-space-size=" ++ toString (natOrDefault (none : Option Nat) 8 * 1024))
      ∈ buildOrbitaArgs ⟨some ⟨none, none, none, none, some 4, none⟩, none, none, "sid"⟩
          none [] :=
  c4_memory_flag ⟨some ⟨none, none, none, none, some 4, none⟩, none, none, "sid"⟩
    ⟨none, none, none, none, some 4, none⟩ none [] rfl (by decide)

/-! ### Claim C2 -/

theorem fetchAux_attempts_le (net : Nat → Except String (Option FingerprintData))
    (sid : String) : ∀ fuel attempt, (fetchAux net sid attempt fuel).attempts ≤ fuel := by
  intro fuel
  induction fuel with
  | zero => intro attempt; simp [fetchAux]
  | succ m ih =>
    intro attempt
    cases hnet : net attempt with
    | ok o =>
      cases o with
      | some d => simp [fetchAux, hnet]
      | none =>
        by_cases hm : m = 0
        · subst hm; simp [fetchAux, hnet]
        · simp only [fetchAux, hnet, if_neg hm]
          exact Nat.succ_le_succ (ih (attempt + 1))
    | error e =>
      by_cases hm : m = 0
      · subst hm; simp [fetchAux, hnet]
      · simp only [fetchAux, hnet, if_neg hm]
        exact Nat.succ_le_succ (ih (attempt + 1))

/-- C2: the fingerprint fetch makes at most 3 attempts; a success on
attempt k returns the response body with the fresh session identifier after
k attempts and the delays injected so far (1 second after the first
failure, 2 more after the second); three failures end with the
FingerprintUnavailable message carrying the last underlying error after
exactly 3 attempts and 3 seconds of injected delay. -/
theorem c2_fetch_retry_policy (net : Nat → Except String (Option FingerprintData))
    (sid : String) :
    (fetchGologinFingerprint net sid).attempts ≤ 3
    ∧ (∀ d, net 1 = .ok (some d) →
        fetchGologinFingerprint net sid = ⟨.ok (withSessionId d sid), 1, 0⟩)
    ∧ (∀ e1 d, attemptFailsWith (net 1) e1 → net 2 = .ok (some d) →
        fetchGologinFingerprint net sid = ⟨.ok (withSessionId d sid), 2, 1000⟩)
    ∧ (∀ e1 e2 d, attemptFailsWith (net 1) e1 → attemptFailsWith (net 2) e2 →
        net 3 = .ok (some d) →
        fetchGologinFingerprint net sid = ⟨.ok (withSessionId d sid), 3, 3000⟩)
    ∧ (∀ e1 e2 e3, attemptFailsWith (net 1) e1 → attemptFailsWith (net 2) e2 →
        attemptFailsWith (net 3) e3 →
        fetchGologinFingerprint net sid = ⟨.error (exhaustedMsg e3), 3, 3000⟩) := by
  refine ⟨fetchAux_attempts_le net sid 3 1, ?_, ?_, ?_, ?_⟩
  · intro d h1
    simp [fetchGologinFingerprint, maxRetries, fetchAux, h1]
  · intro e1 d hf1 h2
    rcases hf1 with h1 | ⟨h1, _⟩ <;>
      simp [fetchGologinFingerprint, maxRetries, fetchAux, h1, h2]
  · intro e1 e2 d hf1 hf2 h3
    rcases hf1 with h1 | ⟨h1, _⟩ <;> rcases hf2 with h2 | ⟨h2, _⟩ <;>
      simp [fetchGologinFingerprint, maxRetries, fetchAux, h1, h2, h3]
  · intro e1 e2 e3 hf1 hf2 hf3
    rcases hf1 with h1 | ⟨h1, _⟩ <;> rcases hf2 with h2 | ⟨h2, _⟩ <;>
      rcases hf3 with h3 | ⟨h3, he3⟩ <;> (try subst he3) <;>
      simp [fetchGologinFingerprint, maxRetries, fetchAux, h1, h2, h3]

theorem c2_witness :
    fetchGologinFingerprint (fun _ => Except.error "boom") "sid-w"
      = ⟨.error (exhaustedMsg "boom"), 3, 3000⟩ :=
  ((((c2_fetch_retry_policy (fun _ => Except.error "boom") "sid-w").2).2).2).2
    "boom" "boom" "boom" (Or.inl rfl) (Or.inl rfl) (Or.inl rfl)

/-! ### Claim C3 -/

/-- C3: on a WebSocket upgrade of the intercepted path the middleware
always forwards the request; when acquisition fails (no descriptor, or a
thrown error) the request and the registry are left untouched; when it
succeeds the descriptor is attached to the request and inserted into the
registry before forwarding; and a failing remote call always makes
acquisition return no descriptor. -/
theorem c3_upgrade_always_forwarded (fpOutcome : Except String (Option GwFingerprint))
    (req : Request) (reg : Registry) (hup : req.upgradeHeader = some "websocket") :
    (fingerprintMiddleware fpOutcome req reg).forwarded = true
    ∧ ((∀ fp, fpOutcome ≠ .ok (some fp)) →
        (fingerprintMiddleware fpOutcome req reg).req = req
        ∧ (fingerprintMiddleware fpOutcome req reg).registry = reg)
    ∧ (∀ fp, fpOutcome = .ok (some fp) →
        (fingerprintMiddleware fpOutcome req reg).req.gologinFingerprint = some fp
        ∧ (fingerprintMiddleware fpOutcome req reg).registry
            = registrySet reg fp.profile_id fp)
    ∧ (∀ api uuid8 now, (api = .ok none ∨ ∃ e, api = Except.error e) →
        generateFreshFingerprint api uuid8 now = none) := by
  refine ⟨?_, ?_, ?_, ?_⟩
  · cases fpOutcome with
    | ok o => cases o <;> simp [fingerprintMiddleware, hup]
    | error e => simp [fingerprintMiddleware, hup]
  · intro hne
    cases fpOutcome with
    | ok o =>
      cases o with
      | some fp => exact absurd rfl (hne fp)
      | none => simp [fingerprintMiddleware, hup]
    | error e => simp [fingerprintMiddleware, hup]
  · intro fp hfp
    subst hfp
    simp [fingerprintMiddleware, hup]
  · intro api uuid8 now h
    rcases h with h | ⟨e, h⟩ <;> subst h <;> simp [generateFreshFingerprint]

theorem c3_witness :
    (fingerprintMiddleware (.ok none) ⟨some "websocket", none⟩ []).forwarded = true
    ∧ ((∀ fp, (Except.ok none : Except String (Option GwFingerprint)) ≠ .ok (some fp)) →
        (fingerprintMiddleware (.ok none) ⟨some "websocket", none⟩ []).req
          = ⟨some "websocket", none⟩
        ∧ (fingerprintMiddleware (.ok none) ⟨some "websocket", none⟩ []).registry = [])
    ∧ (∀ fp, (Except.ok none : Except String (Option GwFingerprint)) = .ok (some fp) →
        (fingerprintMiddleware (.ok none) ⟨some "websocket", none⟩ []).req.gologinFingerprint
          = some fp
        ∧ (fingerprintMiddleware (.ok none) ⟨some "websocket", none⟩ []).registry
            = registrySet [] fp.profile_id fp)
    ∧ (∀ api uuid8 now, (api = .ok none ∨ ∃ e, api = Except.error e) →
        generateFreshFingerprint api uuid8 now = none) :=
  c3_upgrade_always_forwarded (.ok none) ⟨some "websocket", none⟩ [] rfl

/-! ### Claim C5 -/

/-- C5: in the keep-service-alive wrapper an exit code of 0 schedules no
restart while any non-zero code schedules one after 5 seconds; in the
launcher path the profile directory of the session is reclaimed and the
child exit code becomes the launcher exit code, for every exit code
(clean exit with code 0 included). -/
theorem c5_exit_handling (codeLauncher codeWrapper : Int) (pp : Option String)
    (p : String) (hcW : codeWrapper ≠ 0) (hp : pp = some p) :
    onBrowserlessExit 0 = RestartAction.noRestart
    ∧ onBrowserlessExit codeWrapper = RestartAction.restartAfterMs 5000
    ∧ (onOrbitaExit pp true codeLauncher).reclaimInvoked = true
    ∧ (onOrbitaExit pp true codeLauncher).exitCode = codeLauncher := by
  refine ⟨by simp [onBrowserlessExit], by simp [onBrowserlessExit, hcW], ?_, rfl⟩
  subst hp
  simp [onOrbitaExit]

theorem c5_witness :
    onBrowserlessExit 0 = RestartAction.noRestart
    ∧ onBrowserlessExit 1 = RestartAction.restartAfterMs 5000
    ∧ (onOrbitaExit (some "/tmp/orbita-profiles/abc") true 0).reclaimInvoked = true
    ∧ (onOrbitaExit (some "/tmp/orbita-profiles/abc") true 0).exitCode = 0 :=
  c5_exit_handling 0 1 (some "/tmp/orbita-profiles/abc") "/tmp/orbita-profiles/abc"
    (by decide) rfl

/-! ### Claims C6 and C7 -/

theorem sweepLoop_clean (cutoff : Int) (dirs : List (String × Nat)) :
    sweepLoop cutoff (dirs.map cleanEntry)
      = ((dirs.filter fun d => (d.2 : Int) < cutoff).map Prod.fst, none) := by
  induction dirs with
  | nil => simp [sweepLoop]
  | cons d rest ih =>
    by_cases h : (d.2 : Int) < cutoff
    · simp [sweepLoop, cleanEntry, h, ih, List.filter_cons]
    · simp [sweepLoop, cleanEntry, h, ih, List.filter_cons]

/-- C6: with every filesystem call succeeding, a sweep removes exactly the
directories whose modification time is older than the cutoff
(`now - 2 hours`), logs nothing, and retains every directory at least as
young as the cutoff. -/
theorem c6_sweep_removes_old (now : Nat) (dirs : List (String × Nat))
    (hnd : (dirs.map Prod.fst).Nodup) :
    (cleanupOldProfiles now (.ok (dirs.map cleanEntry))).1
      = ((dirs.filter fun d => (d.2 : Int) < (now : Int) - (twoHoursMs : Int)).map Prod.fst)
    ∧ (cleanupOldProfiles now (.ok (dirs.map cleanEntry))).2 = none
    ∧ ∀ nm mt, (nm, mt) ∈ dirs → ¬ ((mt : Int) < (now : Int) - (twoHoursMs : Int)) →
        nm ∉ (cleanupOldProfiles now (.ok (dirs.map cleanEntry))).1 := by
  have h := sweepLoop_clean ((now : Int) - (twoHoursMs : Int)) dirs
  refine ⟨by simp [cleanupOldProfiles, h], by simp [cleanupOldProfiles, h], ?_⟩
  intro nm mt hmem hyoung hcontra
  simp only [cleanupOldProfiles, h] at hcontra
  obtain ⟨d, hd, hfst⟩ := List.mem_map.mp hcontra
  have hdm := List.mem_filter.mp hd
  have hde : d = (nm, mt) := by
    refine List.inj_on_of_nodup_map hnd hdm.1 hmem ?_
    simpa using hfst
  rw [hde] at hdm
  exact hyoung (by simpa using hdm.2)

theorem c6_witness :
    (cleanupOldProfiles 28800000 (.ok (([("old", 0), ("fresh", 28800000)] : List (String × Nat)).map cleanEntry))).1
      = ((([("old", 0), ("fresh", 28800000)] : List (String × Nat)).filter
          fun d => (d.2 : Int) < ((28800000 : Nat) : Int) - (twoHoursMs : Int)).map Prod.fst)
    ∧ (cleanupOldProfiles 28800000
        (.ok (([("old", 0), ("fresh", 28800000)] : List (String × Nat)).map cleanEntry))).2 = none
    ∧ ∀ nm mt, (nm, mt) ∈ ([("old", 0), ("fresh", 28800000)] : List (String × Nat)) →
        ¬ ((mt : Int) < ((28800000 : Nat) : Int) - (twoHoursMs : Int)) →
        nm ∉ (cleanupOldProfiles 28800000
          (.ok (([("old", 0), ("fresh", 28800000)] : List (String × Nat)).map cleanEntry))).1 :=
  c6_sweep_removes_old 28800000 ([("old", 0), ("fresh", 28800000)] : List (String × Nat)) (by decide)

/-- C7 counterexample: with a first directory whose stat call fails and a
second directory old enough to qualify for removal, the sweep logs the
error and removes nothing: it does not continue with the remaining
directories as the claim states. -/
theorem c7_counterexample :
    cleanupOldProfiles 36000000
        (.ok [⟨"alpha", .error "stat boom", .ok ()⟩, ⟨"beta", .ok 0, .ok ()⟩])
      = ([], some "stat boom")
    ∧ ((0 : Int) < ((36000000 : Nat) : Int) - (twoHoursMs : Int))
    ∧ "beta" ∉ (cleanupOldProfiles 36000000
        (.ok [⟨"alpha", .error "stat boom", .ok ()⟩, ⟨"beta", .ok 0, .ok ()⟩])).1 := by
  refine ⟨by decide, by decide, by decide⟩

/-- C7 amended: when the sweep hits an error on an individual directory
(stat or delete), it logs that error and does not propagate any failure to
the caller (the sweep is a total function whose only error output is the
logged warning), but it stops: the remaining directories are not processed
in that sweep. -/
theorem c7_error_logged_and_sweep_stops (now : Nat) (e : SweepEntry)
    (rest : List SweepEntry) (msg : String) :
    (e.statResult = .error msg →
      cleanupOldProfiles now (.ok (e :: rest)) = ([], some msg))
    ∧ (∀ m, e.statResult = .ok m → (m : Int) < (now : Int) - (twoHoursMs : Int) →
        e.rmResult = .error msg →
        cleanupOldProfiles now (.ok (e :: rest)) = ([], some msg)) := by
  constructor
  · intro h
    simp [cleanupOldProfiles, sweepLoop, h]
  · intro m hs hlt hr
    simp [cleanupOldProfiles, sweepLoop, hs, hlt, hr]

theorem c7_witness :
    cleanupOldProfiles 0 (.ok [⟨"alpha", .error "boom", .ok ()⟩]) = ([], some "boom") :=
  (c7_error_logged_and_sweep_stops 0 ⟨"alpha", .error "boom", .ok ()⟩ [] "boom").1 rfl

/-! ### Claim C10 -/

theorem registrySet_keys_mono (m : Registry) (k : String) (v : GwFingerprint) :
    ∀ k2, k2 ∈ registryKeys m → k2 ∈ registryKeys (registrySet m k v) := by
  intro k2 hk2
  unfold registrySet
  by_cases h : (List.any m fun p => p.1 == k) = true
  · rw [if_pos h]
    obtain ⟨p, hp, hfst⟩ := List.mem_map.mp hk2
    refine List.mem_map.mpr ⟨if p.1 = k then (k, v) else p, List.mem_map_of_mem _ hp, ?_⟩
    by_cases hpk : p.1 = k
    · rw [if_pos hpk]
      rw [← hfst, hpk]
    · rw [if_neg hpk]
      exact hfst
  · rw [if_neg h]
    unfold registryKeys
    rw [List.map_append]
    exact List.mem_append_left _ hk2

theorem registrySet_length_mono (m : Registry) (k : String) (v : GwFingerprint) :
    m.length ≤ (registrySet m k v).length := by
  unfold registrySet
  by_cases h : (List.any m fun p => p.1 == k) = true
  · rw [if_pos h, List.length_map]
  · rw [if_neg h, List.length_append]
    exact Nat.le_add_right _ _

theorem applyGatewayOp_cases (reg : Registry) (op : GatewayOp) :
    applyGatewayOp reg op = reg
      ∨ ∃ k v, applyGatewayOp reg op = registrySet reg k v := by
  cases op with
  | upgrade fpOutcome req =>
    simp only [applyGatewayOp, fingerprintMiddleware]
    by_cases hup : req.upgradeHeader = some "websocket"
    · rw [if_pos hup]
      cases fpOutcome with
      | ok o =>
        cases o with
        | some fp => exact Or.inr ⟨fp.profile_id, fp, rfl⟩
        | none => exact Or.inl rfl
      | error e => exact Or.inl rfl
    · rw [if_neg hup]
      exact Or.inl rfl
  | generateEndpoint api uuid8 now => exact Or.inl rfl
  | activeEndpoint => exact Or.inl rfl
  | healthEndpoint => exact Or.inl rfl

theorem applyGatewayOp_keys_mono (reg : Registry) (op : GatewayOp) :
    ∀ k, k ∈ registryKeys reg → k ∈ registryKeys (applyGatewayOp reg op) := by
  intro k hk
  rcases applyGatewayOp_cases reg op with h | ⟨k2, v2, h⟩
  · rw [h]; exact hk
  · rw [h]; exact registrySet_keys_mono reg k2 v2 k hk

theorem applyGatewayOp_length_mono (reg : Registry) (op : GatewayOp) :
    reg.length ≤ (applyGatewayOp reg op).length := by
  rcases applyGatewayOp_cases reg op with h | ⟨k2, v2, h⟩
  · rw [h]
  · rw [h]; exact registrySet_length_mono reg k2 v2

/-- C10: the active-session registry is append-only over the gateway
lifetime: every gateway operation either leaves it unchanged or performs a
map insertion, no operation removes an entry, so along any sequence of
operations the set of registered identifiers only grows and the reported
active count never decreases. -/
theorem c10_registry_append_only (reg : Registry) (ops : List GatewayOp) :
    (∀ k, k ∈ registryKeys reg → k ∈ registryKeys (runGatewayOps reg ops))
    ∧ activeCount reg ≤ activeCount (runGatewayOps reg ops)
    ∧ (∀ op, applyGatewayOp reg op = reg
        ∨ ∃ k v, applyGatewayOp reg op = registrySet reg k v) := by
  refine ⟨?_, ?_, applyGatewayOp_cases reg⟩
  · intro k hk
    induction ops generalizing reg with
    | nil => exact hk
    | cons op ops ih =>
      exact ih (applyGatewayOp reg op) (applyGatewayOp_keys_mono reg op k hk)
  · induction ops generalizing reg with
    | nil => exact Nat.le_refl _
    | cons op ops ih =>
      exact Nat.le_trans (applyGatewayOp_length_mono reg op) (ih (applyGatewayOp reg op))

theorem c10_witness :
    (∀ k, k ∈ registryKeys ([] : Registry)
        → k ∈ registryKeys (runGatewayOps ([] : Registry) [GatewayOp.activeEndpoint]))
    ∧ activeCount ([] : Registry)
        ≤ activeCount (runGatewayOps ([] : Registry) [GatewayOp.activeEndpoint])
    ∧ (∀ op, applyGatewayOp ([] : Registry) op = ([] : Registry)
        ∨ ∃ k v, applyGatewayOp ([] : Registry) op = registrySet ([] : Registry) k v) :=
  c10_registry_append_only [] [GatewayOp.activeEndpoint]

/-! ### Claim C8 -/

theorem not_isPrefixOf_append (pat fixed rest : List Char) (i : Nat)
    (hi : i < pat.length) (hf : i < fixed.length)
    (hne : pat.get ⟨i, hi⟩ ≠ fixed.get ⟨i, hf⟩) :
    pat.isPrefixOf (fixed ++ rest) = false := by
  by_contra h
  rw [Bool.not_eq_false, List.isPrefixOf_iff_prefix] at h
  have hlen : i < (fixed ++ rest).length := by
    rw [List.length_append]
    exact Nat.lt_of_lt_of_le hf (Nat.le_add_right _ _)
  have hgl : (fixed ++ rest).get ⟨i, hlen⟩ = pat.get ⟨i, hi⟩ := by
    simp only [List.get_eq_getElem]
    exact (h.getElem hi).symm
  have hgf : (fixed ++ rest).get ⟨i, hlen⟩ = fixed.get ⟨i, hf⟩ := by
    simp only [List.get_eq_getElem]
    exact List.getElem_append_left hf
  exact hne (hgl.symm.trans hgf)

/-- An argument made of a fixed flag text followed by interpolated data
does not start with `--user-data-dir` as long as the fixed part differs
from it at some character position. -/
theorem jsStartsWith_append_false (fixed tail : String) (i : Nat)
    (hi : i < "--user-data-dir".data.length) (hf : i < fixed.data.length)
    (hne : "--user-data-dir".data.get ⟨i, hi⟩ ≠ fixed.data.get ⟨i, hf⟩) :
    jsStartsWith (fixed ++ tail) "--user-data-dir" = false := by
  unfold jsStartsWith
  rw [String.data_append]
  exact not_isPrefixOf_append _ _ _ i hi hf hne

theorem essential_no_userDataDir :
    ∀ a ∈ essentialArgs, jsStartsWith a "--user-data-dir" = false := by
  decide

theorem fingerprintArgs_no_userDataDir (fp : Fingerprint) :
    ∀ a ∈ fingerprintArgs fp none, jsStartsWith a "--user-data-dir" = false := by
  intro a ha
  simp only [fingerprintArgs, userDataArgs, List.nil_append, List.mem_append] at ha
  rcases ha with (hnav | hcan) | hweb
  · cases hn : fp.navigator with
    | none => rw [hn] at hnav; simp [navArgs] at hnav
    | some n =>
      rw [hn] at hnav
      simp only [navArgs, List.mem_append] at hnav
      rcases hnav with ((((hua | hws) | hlang) | hplat) | hmem)
      · cases hu : truthyStr n.userAgent with
        | none => simp [uaArgs, hu] at hua
        | some ua =>
          simp only [uaArgs, hu, List.mem_singleton] at hua
          subst hua
          exact jsStartsWith_append_false _ _ 7 (by decide) (by decide) (by decide)
      · cases hr : truthyStr n.resolution with
        | none => simp [windowSizeArgs, hr] at hws
        | some r =>
          simp only [windowSizeArgs, hr, List.mem_singleton] at hws
          subst hws
          exact jsStartsWith_append_false _ _ 2 (by decide) (by decide) (by decide)
      · cases hl : truthyStr n.language with
        | none => simp [langArgs, hl] at hlang
        | some l =>
          simp only [langArgs, hl, List.mem_cons, List.not_mem_nil, or_false] at hlang
          rcases hlang with rfl | rfl
          · exact jsStartsWith_append_false _ _ 2 (by decide) (by decide) (by decide)
          · exact jsStartsWith_append_false _ _ 2 (by decide) (by decide) (by decide)
      · cases hp : truthyStr n.platform with
        | none => simp [platformArgs, hp] at hplat
        | some p =>
          simp only [platformArgs, hp] at hplat
          by_cases hm : containsMac p = true
          · rw [if_pos hm] at hplat
            rcases List.mem_singleton.mp hplat with rfl
            decide
          · rw [if_neg hm] at hplat
            simp at hplat
      · simp only [memoryArgs] at hmem
        by_cases hh : truthyNat n.hardwareConcurrency = true
        · rw [if_pos hh] at hmem
          rcases List.mem_singleton.mp hmem with rfl
          exact jsStartsWith_append_false _ _ 2 (by decide) (by decide) (by decide)
        · rw [if_neg hh] at hmem
          simp at hmem
  · cases hc : fp.canvas with
    | none => rw [hc] at hcan; simp [modeOffArgs] at hcan
    | some mm =>
      rw [hc] at hcan
      simp only [modeOffArgs] at hcan
      by_cases hoff : mm.mode = some "off"
      · rw [if_pos hoff] at hcan
        rcases List.mem_cons.mp hcan with rfl | hcan2
        · decide
        · rcases List.mem_singleton.mp hcan2 with rfl
          decide
      · rw [if_neg hoff] at hcan
        simp at hcan
  · cases hw : fp.webGLMetadata with
    | none => rw [hw] at hweb; simp [modeOffArgs] at hweb
    | some mm =>
      rw [hw] at hweb
      simp only [modeOffArgs] at hweb
      by_cases hoff : mm.mode = some "off"
      · rw [if_pos hoff] at hweb
        rcases List.mem_cons.mp hweb with rfl | hweb2
        · decide
        · rcases List.mem_singleton.mp hweb2 with rfl
          decide
      · rw [if_neg hoff] at hweb
        simp at hweb

/-- C8: when creating the profile directory or writing its preference file
fails, prepare returns an empty handle instead of raising, the launch still
proceeds (no abort) with that empty handle, and the built argument list
carries no user-data-directory flag beyond any the caller supplied
itself. -/
theorem c8_profile_failure_degrades (profileDir : String) (fp : Fingerprint)
    (fsEnv : ProfileFs) (caller : List String)
    (herr : (∃ msg, fsEnv.mkdirProfile = .error msg)
      ∨ (∃ msg, fsEnv.mkdirDefault = .error msg)
      ∨ (∃ msg, fsEnv.writePrefs = .error msg)) :
    setupProfileDirectory profileDir fp fsEnv = none
    ∧ launchPlan (.ok fp) fsEnv profileDir caller
        = .ok ⟨buildOrbitaArgs fp none caller, none⟩
    ∧ ∀ a ∈ buildOrbitaArgs fp none caller,
        jsStartsWith a "--user-data-dir" = true → a ∈ caller := by
  have hsetup : setupProfileDirectory profileDir fp fsEnv = none := by
    rcases herr with ⟨m, hm⟩ | ⟨m, hm⟩ | ⟨m, hm⟩
    · simp [setupProfileDirectory, hm]
    · cases h1 : fsEnv.mkdirProfile <;> simp [setupProfileDirectory, h1, hm]
    · cases h1 : fsEnv.mkdirProfile <;> cases h2 : fsEnv.mkdirDefault <;>
        simp [setupProfileDirectory, h1, h2, hm]
  refine ⟨hsetup, by simp [launchPlan, hsetup], ?_⟩
  intro a ha hsw
  rw [buildOrbitaArgs, mergeEssentialsAux_eq_append] at ha
  rcases List.mem_append.mp ha with hpre | hextra
  · rcases List.mem_append.mp hpre with hc | hfpa
    · exact hc
    · exact absurd hsw (by simp [fingerprintArgs_no_userDataDir fp a hfpa])
  · have hess := mem_of_mem_extraEssentialsAux _ _ _ hextra
    exact absurd hsw (by simp [essential_no_userDataDir a hess])

theorem c8_witness :
    setupProfileDirectory "/tmp/orbita-profiles" ⟨none, none, none, "s"⟩
        ⟨.error "disk full", .ok (), .ok ()⟩ = none
    ∧ launchPlan (.ok ⟨none, none, none, "s"⟩) ⟨.error "disk full", .ok (), .ok ()⟩
        "/tmp/orbita-profiles" ["--headless"]
        = .ok ⟨buildOrbitaArgs ⟨none, none, none, "s"⟩ none ["--headless"], none⟩
    ∧ ∀ a ∈ buildOrbitaArgs ⟨none, none, none, "s"⟩ none ["--headless"],
        jsStartsWith a "--user-data-dir" = true → a ∈ ["--headless"] :=
  c8_profile_failure_degrades "/tmp/orbita-profiles" ⟨none, none, none, "s"⟩
    ⟨.error "disk full", .ok (), .ok ()⟩ ["--headless"] (Or.inl ⟨"disk full", rfl⟩)

end BrowserlessCompose
